import Mathlib

/-!
Verification of the entity/collection membership cache and synchronization
layer of the rebase platform dashboard.

The definitions below are a shallow embedding of the Python source:

  - app/states/entities.py     (EntitiesState: entity cache, lazy load, create)
  - app/states/collections.py  (CollectionsState: collection registry)
  - app/services/supabase_service.py (remote store gateway operations)

Conventions of the embedding:

  - Python dicts keyed by strings become association lists
    (List (String x a)) with Python dict semantics (insertion order, first
    occurrence of a key is the binding; dictSet overwrites in place).
  - Float-valued fields (TimeSeries.value, Site.capacity, form capacity)
    are carried as their decimal string rendering, because the cache and
    membership logic only ever consume them through str(value); no
    arithmetic on them occurs in the embedded code.
  - Remote calls are passed in as explicit arguments: each fetch outcome
    is an (Except String data) value (error = a raised transport
    exception); the entity loader takes one outcome per remote call in
    source order, so an error at an intermediate fetch is representable
    and leaves exactly the cache assignments made before it.  A persist
    attempt is an (Except String Unit) outcome.  Functions that may
    consult the gateway additionally return a Bool recording whether a
    remote fetch was issued.
  - Nondeterministic inputs (uuid4 ids, datetime.now ISO strings, route
    parameters) are passed in as explicit string arguments.
-/

/-- Lowercase a string character by character: model of the Python
str.lower calls used by the search filters (ASCII case folding). -/
def pyLower (s : String) : String := String.mk (s.data.map Char.toLower)

/-- Substring test on character lists: charsContain needle hay decides the
Python expression needle in hay. -/
def charsContain (needle : List Char) : List Char → Bool
  | [] => needle.isPrefixOf []
  | c :: t => needle.isPrefixOf (c :: t) || charsContain needle t

/-- Python membership test needle in hay for strings. -/
def pyIn (needle hay : String) : Bool := charsContain needle.data hay.data

/-- Strip leading and trailing whitespace: model of Python str.strip. -/
def pyStrip (s : String) : String :=
  String.mk (((s.data.dropWhile Char.isWhitespace).reverse.dropWhile Char.isWhitespace).reverse)

/-- TimeSeries entity record (states/entities.py, class TimeSeries).  The
float field value is carried as its decimal string rendering; the embedded
logic only uses it through str(value). -/
structure TimeSeries where
  id : String
  name : String
  description : String
  unit : String
  site_name : String
  timestamp : String
  value : String
  type : String
  tags : List String
deriving DecidableEq

/-- Search filter body shared by selected_collection_entities
(states/collections.py, lines 307-319) and all_time_series_entities
(states/entities.py, lines 352-364): when the query is non-empty, keep the
items whose lowercased searchable fields contain the lowercased query. -/
def searchFilter (search_query : String) (items : List TimeSeries) : List TimeSeries :=
  if search_query = "" then items
  else
    let query := pyLower search_query
    items.filter (fun item =>
      pyIn query (pyLower item.name) ||
      pyIn query (pyLower item.description) ||
      pyIn query (pyLower item.unit) ||
      pyIn query (pyLower item.site_name) ||
      pyIn query (pyLower item.value) ||
      pyIn query (pyLower item.type))

/-- The searchable fields of a TimeSeries entity, in source order: name,
description, unit, site_name, the string form of value, and type. -/
def searchable_fields (item : TimeSeries) : List String :=
  [item.name, item.description, item.unit, item.site_name, item.value, item.type]

/-- Predicate in the words of the specification: the query is a
case-insensitive substring of at least one searchable field. -/
def spec_matches (q : String) (item : TimeSeries) : Bool :=
  (searchable_fields item).any (fun f => pyIn (pyLower q) (pyLower f))

/-- Table column configuration (states/collections.py, class TableColumn). -/
structure TableColumn where
  name : String
  key : String
  type : String
  visible : Bool
deriving DecidableEq

/-- Collection configuration (states/collections.py, class CollectionConfig). -/
structure CollectionConfig where
  id : String
  name : String
  object_type : String
  attributes : List TableColumn
  created_at : String
  emoji : String
  view_type : String
  created_by : String
  is_favorite : Bool
  is_default : Bool
deriving DecidableEq

/-- First pass of set_default_collection (collections.py, lines 676-683):
clear is_default on every collection currently holding it (the persist of
each change has no in-memory effect). -/
def clearDefaults (cols : List CollectionConfig) : List CollectionConfig :=
  cols.map (fun c => if c.is_default then { c with is_default := false } else c)

/-- Second pass of set_default_collection (lines 685-691): set is_default
on the first collection whose id matches, then break. -/
def setFirstDefault (collection_id : String) : List CollectionConfig → List CollectionConfig
  | [] => []
  | c :: cs =>
    if c.id == collection_id then { c with is_default := true } :: cs
    else c :: setFirstDefault collection_id cs

/-- In-memory effect of set_default_collection (collections.py, lines
673-694): clear all is_default flags, then set the target. -/
def set_default_collection (collection_id : String) (cols : List CollectionConfig) :
    List CollectionConfig :=
  setFirstDefault collection_id (clearDefaults cols)

/-- Number of collections carrying is_default = true. -/
def countDefaults (cols : List CollectionConfig) : Nat :=
  cols.countP (fun c => c.is_default)

/-- toggle_collection_favorite (collections.py, lines 660-671): flip
is_favorite on the first collection whose id matches, then break; the save
step has no in-memory effect. -/
def toggle_collection_favorite (collection_id : String) : List CollectionConfig → List CollectionConfig
  | [] => []
  | c :: cs =>
    if c.id == collection_id then { c with is_favorite := !c.is_favorite } :: cs
    else c :: toggle_collection_favorite collection_id cs

/-- Python dict lookup with default: d.get(k, dflt). -/
def dictGetD {α : Type} (d : List (String × α)) (k : String) (dflt : α) : α :=
  match d.find? (fun p => p.1 == k) with
  | some p => p.2
  | none => dflt

/-- Python dict lookup returning an optional value. -/
def dictFind {α : Type} (d : List (String × α)) (k : String) : Option α :=
  (d.find? (fun p => p.1 == k)).map (fun p => p.2)

/-- Python membership test k in d for dicts. -/
def dictContains {α : Type} (d : List (String × α)) (k : String) : Bool :=
  d.any (fun p => p.1 == k)

/-- Python dict assignment d[k] = v: overwrite in place if the key exists,
otherwise append the new binding (insertion order semantics). -/
def dictSet {α : Type} (d : List (String × α)) (k : String) (v : α) : List (String × α) :=
  if dictContains d k then d.map (fun p => if p.1 == k then (p.1, v) else p)
  else d ++ [(k, v)]

/-- Python pattern used by create_entity: initialize d[k] to an empty list
if the key is absent, then d[k].append(v). -/
def dictAppend {α : Type} (d : List (String × List α)) (k : String) (v : α) :
    List (String × List α) :=
  let d2 := if dictContains d k then d else d ++ [(k, [])]
  d2.map (fun p => if p.1 == k then (p.1, p.2 ++ [v]) else p)

/-- Site entity record (states/entities.py, class Site); capacity is
carried as its decimal string rendering. -/
structure Site where
  id : String
  name : String
  description : String
  site_type : String
  capacity : String
  status : String
  location : String
  tags : List String
deriving DecidableEq

/-- Asset entity record (states/entities.py, class Asset). -/
structure Asset where
  id : String
  name : String
  description : String
  asset_type : String
  site_id : String
  site_name : String
  status : String
  tags : List String
deriving DecidableEq

/-- The fields of EntitiesState that the membership cache logic touches
(states/entities.py, class EntitiesState). -/
structure EntitiesState where
  time_series_entities : List (String × List TimeSeries)
  site_entities : List Site
  asset_entities : List Asset
  entities_loaded : Bool
  selected_object_type : String
  is_loading : Bool
  entity_search_query : String
deriving DecidableEq

/-- Outcomes of the individual remote calls made inside the try block of
_load_entities_from_db, in source order: get_workspace (some id, or none
for an absent or not-configured workspace), the TimeSeries entity rows,
the collection rows, the junction table contents per collection (the
per-collection get_entity_ids_for_collection calls are collapsed into one
outcome because every one of them runs before the first cache assignment,
so a failure among them has the same observable effect), the Site rows,
and the Asset rows.  An error value models an exception raised by that
remote call; later fields are never consulted once an earlier one
errors. -/
structure GatewayFetches where
  workspace : Except String (Option String)
  timeseries_rows : Except String (List TimeSeries)
  collection_rows : Except String (List CollectionConfig)
  memberships : Except String (List (String × List String))
  site_rows : Except String (List Site)
  asset_rows : Except String (List Asset)

/-- entity_map construction in _load_entities_from_db (entities.py, lines
95-109): a dict from entity id to entity, filled in row order. -/
def build_entity_map (rows : List TimeSeries) : List (String × TimeSeries) :=
  rows.foldl (fun m e => dictSet m e.id e) []

/-- Per-collection hydration in _load_entities_from_db (entities.py, lines
117-120): resolve each membership entity id against entity_map, silently
dropping ids with no loaded TimeSeries entity. -/
def hydrate_collection (entity_map : List (String × TimeSeries)) (entity_ids : List String) :
    List TimeSeries :=
  entity_ids.filterMap (fun eid => dictFind entity_map eid)

/-- _load_entities_from_db (entities.py, lines 75-163).  Returns the new
state and whether a remote fetch was issued.  The try block performs its
remote calls in order and assigns _time_series_entities (line 122) and
_site_entities (line 140) as it goes, so an exception raised by a later
call (the Site fetch at line 125 or the Asset fetch at line 143) reaches
the except handler with the earlier cache assignments already applied;
the handler swallows the error (prints) and still marks the scope
loaded. -/
def load_entities_from_db (s : EntitiesState) (g : GatewayFetches) :
    EntitiesState × Bool :=
  if s.entities_loaded then (s, false)
  else
    match g.workspace with
    | .error _ => ({ s with entities_loaded := true }, true)
    | .ok none => ({ s with entities_loaded := true }, true)
    | .ok (some _) =>
      match g.timeseries_rows with
      | .error _ => ({ s with entities_loaded := true }, true)
      | .ok ts_rows =>
        let entity_map := build_entity_map ts_rows
        match g.collection_rows with
        | .error _ => ({ s with entities_loaded := true }, true)
        | .ok cols =>
          match g.memberships with
          | .error _ => ({ s with entities_loaded := true }, true)
          | .ok mems =>
            let entities_by_collection := cols.map (fun col =>
              (col.id, hydrate_collection entity_map (dictGetD mems col.id [])))
            let s1 := { s with time_series_entities := entities_by_collection }
            match g.site_rows with
            | .error _ => ({ s1 with entities_loaded := true }, true)
            | .ok sites =>
              let s2 := { s1 with site_entities := sites }
              match g.asset_rows with
              | .error _ => ({ s2 with entities_loaded := true }, true)
              | .ok assets =>
                ({ s2 with asset_entities := assets, entities_loaded := true }, true)

/-- The fields of CollectionsState that the registry logic touches
(states/collections.py, class CollectionsState). -/
structure CollectionsState where
  collections : List CollectionConfig
  collections_loaded : Bool
  selected_collection_id : String
  collection_search_query : String
  show_create_collection_modal : Bool
deriving DecidableEq

/-- Data returned by one successful pass of the remote fetch sequence in
_load_collections_from_db: the workspace id (none models an absent row)
and the collection rows of the workspace. -/
structure CollectionsGatewayData where
  workspace : Option String
  collection_rows : List CollectionConfig

/-- _load_collections_from_db (collections.py, lines 95-142).  Returns the
new state, the boolean return value of the Python method, and whether a
remote fetch was issued.  An error argument models an exception raised by
the gateway, which the source swallows while marking the scope loaded. -/
def load_collections_from_db (s : CollectionsState) (g : Except String CollectionsGatewayData) :
    CollectionsState × Bool × Bool :=
  if s.collections_loaded then (s, decide (s.collections.length > 0), false)
  else
    match g with
    | .error _ => ({ s with collections_loaded := true }, false, true)
    | .ok d =>
      match d.workspace with
      | none => ({ s with collections_loaded := true }, false, true)
      | some wid =>
        if wid = "" then ({ s with collections_loaded := true }, false, true)
        else if d.collection_rows.isEmpty then
          ({ s with collections_loaded := true }, false, true)
        else
          ({ s with collections := d.collection_rows, collections_loaded := true }, true, true)

/-- Result of a state event handler: the toast returned to the caller. -/
inductive EventResult where
  | toastError (msg : String)
  | toastSuccess (msg : String)
deriving DecidableEq

/-- The form fields read by create_entity (entities.py, lines 527-585),
with the Python dict .get defaults already applied for absent keys. -/
structure CreateForm where
  name : String
  description : String
  unit : String
  site_type : String
  capacity : String
  location : String
  asset_type : String
  site_name : String

/-- The TimeSeries record built by create_entity (entities.py, lines
539-549). -/
def new_time_series (form : CreateForm) (entity_id now : String) : TimeSeries :=
  { id := entity_id, name := pyStrip form.name, description := pyStrip form.description,
    unit := pyStrip form.unit, site_name := (""), timestamp := now, value := ("0.0"),
    type := ("actual"), tags := [] }

/-- create_entity (entities.py, lines 522-603).  Arguments: the state, the
submitted form, the generated uuid, the current timestamp, and the outcome
of the persist attempt; _save_entity_to_db, _save_site_to_db and
_save_asset_to_db swallow any persist failure (print and return), so the
outcome never influences the state or the returned toast.  Returns the new
state, the toast result, and whether a persist was attempted. -/
def create_entity (s : EntitiesState) (form : CreateForm) (entity_id now : String)
    (_persist : Except String Unit) : EntitiesState × EventResult × Bool :=
  let name := pyStrip form.name
  if name = "" then (s, .toastError ("Name is required"), false)
  else
    let entity_type := s.selected_object_type
    if entity_type = "TimeSeries" then
      let new_entity := new_time_series form entity_id now
      ({ s with time_series_entities :=
          dictAppend s.time_series_entities ("default-timeseries") new_entity },
        .toastSuccess (entity_type ++ " \x27" ++ name ++ "\x27 created successfully!"), true)
    else if entity_type = "Sites" then
      let new_site : Site :=
        { id := entity_id, name := name, description := pyStrip form.description,
          site_type := pyStrip form.site_type, capacity := form.capacity,
          status := ("Active"), location := pyStrip form.location, tags := [] }
      ({ s with site_entities := s.site_entities ++ [new_site] },
        .toastSuccess (entity_type ++ " \x27" ++ name ++ "\x27 created successfully!"), true)
    else if entity_type = "Assets" then
      let new_asset : Asset :=
        { id := entity_id, name := name, description := pyStrip form.description,
          asset_type := pyStrip form.asset_type, site_id := (""),
          site_name := pyStrip form.site_name, status := ("Active"), tags := [] }
      ({ s with asset_entities := s.asset_entities ++ [new_asset] },
        .toastSuccess (entity_type ++ " \x27" ++ name ++ "\x27 created successfully!"), true)
    else (s, .toastError ("Unknown entity type: " ++ entity_type), false)

/-- The form fields read by create_collection (collections.py, lines
453-486), with Python dict .get defaults applied for absent keys. -/
structure CreateCollectionForm where
  collection_name : String
  object_type : String
  emoji : String

/-- Default attribute schema per object type (_get_default_attributes,
collections.py, lines 488-506). -/
def get_default_attributes (object_type : String) : List TableColumn :=
  if object_type = "TimeSeries" then
    [{ name := ("Name"), key := ("name"), type := ("text"), visible := true },
     { name := ("Site"), key := ("site_name"), type := ("text"), visible := true },
     { name := ("Timestamp"), key := ("timestamp"), type := ("date"), visible := true },
     { name := ("Value"), key := ("value"), type := ("number"), visible := true },
     { name := ("Unit"), key := ("unit"), type := ("text"), visible := true },
     { name := ("Type"), key := ("type"), type := ("status"), visible := true }]
  else if object_type = "Site" then
    [{ name := ("Name"), key := ("name"), type := ("text"), visible := true },
     { name := ("Type"), key := ("type"), type := ("status"), visible := true },
     { name := ("Capacity"), key := ("capacity"), type := ("text"), visible := true },
     { name := ("Status"), key := ("status"), type := ("status"), visible := true }]
  else []

/-- create_collection (collections.py, lines 453-486): builds the new
collection from the form without any validation of the name, appends it,
selects it, persists it (outcome swallowed by _save_collection_to_db), and
closes the modal.  Returns the new state, the toast result, and whether a
persist was attempted. -/
def create_collection (s : CollectionsState) (form : CreateCollectionForm)
    (collection_id now : String) (_persist : Except String Unit) :
    CollectionsState × EventResult × Bool :=
  let new_collection : CollectionConfig :=
    { id := collection_id, name := form.collection_name, object_type := form.object_type,
      attributes := get_default_attributes form.object_type, created_at := now,
      emoji := form.emoji, view_type := ("table"), created_by := ("Sebastian Haglund"),
      is_favorite := false, is_default := false }
  ({ s with
      collections := s.collections ++ [new_collection],
      selected_collection_id := collection_id,
      show_create_collection_modal := false },
    .toastSuccess ("Collection \x27" ++ new_collection.name ++ "\x27 created successfully!"), true)

/-- Concrete TimeSeries fixture for evaluation theorems. -/
def exTS (i n : String) : TimeSeries :=
  { id := i, name := n, description := (""), unit := ("kW"), site_name := (""),
    timestamp := (""), value := ("0.0"), type := ("actual"), tags := [] }

/-- Concrete EntitiesState fixture for evaluation theorems. -/
def exEntState (d : List (String × List TimeSeries)) (t : String) : EntitiesState :=
  { time_series_entities := d, site_entities := [], asset_entities := [],
    entities_loaded := true, selected_object_type := t, is_loading := false,
    entity_search_query := ("") }

/-- Concrete create form fixture for evaluation theorems. -/
def exForm (n : String) : CreateForm :=
  { name := n, description := (""), unit := ("kW"), site_type := ("Wind"),
    capacity := ("0.0"), location := (""), asset_type := (""), site_name := ("") }

/-- Concrete CollectionsState fixture for evaluation theorems. -/
def exCollState : CollectionsState :=
  { collections := [], collections_loaded := true, selected_collection_id := (""),
    collection_search_query := (""), show_create_collection_modal := true }

/-- Concrete previously populated but unloaded EntitiesState (the state
left by on_load_entity_page after it clears the loaded flag): used by the
C6 evaluation theorems. -/
def exPrevState : EntitiesState :=
  { time_series_entities := [(("c1"), [exTS ("e1") ("Old")])],
    site_entities := [], asset_entities := [], entities_loaded := false,
    selected_object_type := (""), is_loading := false, entity_search_query := ("") }

/-- Concrete collection row fixture for evaluation theorems. -/
def exCol2 : CollectionConfig :=
  { id := ("c2"), name := ("Fresh collection"), object_type := ("TimeSeries"),
    attributes := [], created_at := (""), emoji := ("📋"), view_type := ("table"),
    created_by := (""), is_favorite := false, is_default := false }

/-- Concrete fetch outcomes where the Site fetch raises an error after
the workspace, TimeSeries, collection and membership fetches succeeded:
used by the C6 evaluation theorems. -/
def exPartialGateway : GatewayFetches :=
  { workspace := .ok (some ("w1")),
    timeseries_rows := .ok [exTS ("e2") ("Fresh")],
    collection_rows := .ok [exCol2],
    memberships := .ok [(("c2"), [("e2")])],
    site_rows := .error ("transport error"),
    asset_rows := .ok [] }

/-- The four seed TimeSeries entities created for the esett-data
collection by on_load (entities.py, lines 259-304). -/
def esett_default_entities (now : String) : List TimeSeries :=
  [{ id := ("blackfjallet"), name := ("Blackfjället"), description := ("Blackfjället wind farm"),
     unit := ("MW"), site_name := ("Blackfjället"), timestamp := now, value := ("90.2"),
     type := ("capacity"), tags := [] },
   { id := ("ranasjo"), name := ("Ranasjo"), description := ("Ranasjo wind farm"),
     unit := ("MW"), site_name := ("Ranasjo"), timestamp := now, value := ("150.0"),
     type := ("capacity"), tags := [] },
   { id := ("storberget"), name := ("Storberget"), description := ("Storberget wind farm"),
     unit := ("MW"), site_name := ("Storberget"), timestamp := now, value := ("75.5"),
     type := ("capacity"), tags := [] },
   { id := ("vindpark-nord"), name := ("Vindpark Nord"), description := ("Vindpark Nord wind farm"),
     unit := ("MW"), site_name := ("Northern Region"), timestamp := now, value := ("200.0"),
     type := ("capacity"), tags := [] }]

/-- on_load (entities.py, lines 247-308): load from the database; if the
cache dict is still empty afterwards, seed the default collections (the
save of the seeds is a write whose outcome is swallowed). -/
def on_load_entities (s : EntitiesState) (g : GatewayFetches) (now : String) :
    EntitiesState × Bool :=
  let r := load_entities_from_db s g
  if r.1.time_series_entities.isEmpty then
    ({ r.1 with time_series_entities :=
        [(("default-timeseries"), []), (("esett-data"), esett_default_entities now)] }, r.2)
  else r

/-- URL entity name to object type mapping (entities.py, lines 337-341). -/
def entity_type_map : List (String × String) :=
  [(("timeseries"), ("TimeSeries")), (("sites"), ("Sites")), (("assets"), ("Assets"))]

/-- on_load_entity_page (entities.py, lines 310-344): reset the loaded
flag to force a fresh load (the explicit invalidate of the entity scope),
reload from the database, and set the selected object type from the route
parameter when one is present. -/
def on_load_entity_page (s : EntitiesState) (g : GatewayFetches)
    (entity_name : String) : EntitiesState × Bool :=
  let r := load_entities_from_db { s with entities_loaded := false } g
  if entity_name = "" then r
  else
    let object_type := dictGetD entity_type_map (pyLower entity_name) entity_name
    ({ r.1 with selected_object_type := object_type, is_loading := false }, r.2)

/-- _load_timeseries_data (entities.py, lines 446-511): fetch the
TimeSeries list from the TimeDB API (a remote distinct from the store
gateway; the per-row conversion of the TimeDB response into TimeSeries
items is abstracted as the already-converted list), overwrite the
default-timeseries cache list, ensure esett-data exists, and clear
is_loading; an API failure only clears is_loading. -/
def load_timeseries_data (s : EntitiesState) (api : Except String (List TimeSeries)) :
    EntitiesState :=
  match api with
  | .error _ => { s with is_loading := false }
  | .ok items =>
    let d0 := if dictContains s.time_series_entities ("default-timeseries") then
        s.time_series_entities
      else s.time_series_entities ++ [(("default-timeseries"), [])]
    let d1 := dictSet d0 ("default-timeseries") items
    let d2 := if dictContains d1 ("esett-data") then d1 else d1 ++ [(("esett-data"), [])]
    { s with time_series_entities := d2, is_loading := false }

/-- The event handlers of EntitiesState that touch the entity cache, each
carrying its external inputs (gateway fetch results, TimeDB API results,
forms, generated ids and timestamps, route parameters). -/
inductive EntOp where
  | onLoad (g : GatewayFetches) (now : String)
  | onLoadEntityPage (g : GatewayFetches) (entity_name : String)
  | loadEntityPage (object_type : String) (api : Except String (List TimeSeries))
  | refreshTimeseries (api : Except String (List TimeSeries))
  | createEntity (form : CreateForm) (entity_id now : String) (persist : Except String Unit)
  | setSearchQuery (q : String)
  | selectObjectType (object_type : String)

/-- Whether the operation is the explicit invalidate of the entity scope:
on_load_entity_page resets the loaded flag to force a fresh load. -/
def EntOp.isExplicitInvalidate : EntOp → Bool
  | .onLoadEntityPage _ _ => true
  | _ => false

/-- One step of the entity subsystem: apply the handler and report whether
a store-gateway fetch for the entity scope was issued. -/
def ent_step (op : EntOp) (s : EntitiesState) : EntitiesState × Bool :=
  match op with
  | .onLoad g now => on_load_entities s g now
  | .onLoadEntityPage g entity_name => on_load_entity_page s g entity_name
  | .loadEntityPage object_type api =>
    let s2 := { s with selected_object_type := object_type }
    if object_type = "TimeSeries" then
      (load_timeseries_data { s2 with is_loading := true } api, false)
    else ({ s2 with is_loading := false }, false)
  | .refreshTimeseries api =>
    (load_timeseries_data { s with is_loading := true } api, false)
  | .createEntity form entity_id now persist =>
    ((create_entity s form entity_id now persist).1, false)
  | .setSearchQuery q => ({ s with entity_search_query := q }, false)
  | .selectObjectType object_type => ({ s with selected_object_type := object_type }, false)

/-- Membership row of the collection_entities junction table. -/
structure MembershipRow where
  collection_id : String
  entity_id : String
  added_at : String
deriving DecidableEq

/-- set_collection_entities (services/supabase_service.py, lines 328-348):
when the store is configured, delete every existing membership row of the
collection, then insert one row per given entity id (no insert call is
made for an empty id list, which changes nothing); when the store is not
configured or has no client, return False with no change. -/
def set_collection_entities (configured : Bool) (table : List MembershipRow)
    (collection_id : String) (entity_ids : List String) (now : String) :
    List MembershipRow × Bool :=
  if !configured then (table, false)
  else
    let deleted := table.filter (fun r => !(r.collection_id == collection_id))
    let inserted := entity_ids.map (fun eid =>
      { collection_id := collection_id, entity_id := eid, added_at := now })
    (deleted ++ inserted, true)

theorem charsContain_substring_iff (needle hay : List Char) :
    charsContain needle hay = true ↔ needle <:+: hay := by
  induction hay with
  | nil =>
    simp [charsContain, List.isPrefixOf_iff_prefix]
  | cons c t ih =>
    simp [charsContain, List.isPrefixOf_iff_prefix, ih, List.infix_cons_iff]

theorem pyIn_empty (hay : String) : pyIn ("") hay = true := by
  cases hay with
  | mk data =>
    cases data with
    | nil => rfl
    | cons c t => simp [pyIn, charsContain, List.isPrefixOf]

theorem spec_matches_empty (item : TimeSeries) : spec_matches ("") item = true := by
  have h : pyLower ("") = ("") := rfl
  simp [spec_matches, searchable_fields, h, pyIn_empty]

/-- C5: for every query string q and entity list L, the search filter
returns exactly the sublist of elements of L for which q is a
case-insensitive substring of at least one searchable field (name,
description, unit, site_name, the string form of value, or type), in the
original order; when q is empty the result equals L unchanged. -/
theorem search_filter_exact (q : String) (L : List TimeSeries) :
    searchFilter q L = L.filter (spec_matches q)
    ∧ (q = "" → searchFilter q L = L)
    ∧ ∀ item : TimeSeries, spec_matches q item = true ↔
        ∃ f ∈ searchable_fields item, (pyLower q).data <:+: (pyLower f).data := by
  refine ⟨?_, ?_, ?_⟩
  · by_cases hq : q = ""
    · subst hq
      have : L.filter (spec_matches ("")) = L := by
        rw [List.filter_congr (fun x _ => spec_matches_empty x)]
        exact List.filter_true L
      rw [this]
      rfl
    · rw [searchFilter, if_neg hq]
      refine List.filter_congr (fun item _ => ?_) |>.symm
      simp [spec_matches, searchable_fields, Bool.or_assoc]
  · intro hq
    subst hq
    rfl
  · intro item
    rw [spec_matches, List.any_eq_true]
    constructor
    · rintro ⟨f, hf, hp⟩
      exact ⟨f, hf, (charsContain_substring_iff _ _).mp hp⟩
    · rintro ⟨f, hf, hp⟩
      exact ⟨f, hf, (charsContain_substring_iff _ _).mpr hp⟩

/-- Evaluation of the C5 theorem at a concrete query and entity list. -/
theorem search_filter_exact_witness :
    searchFilter ("") [] = ([] : List TimeSeries) :=
  (search_filter_exact ("") []).2.1 rfl

theorem clearDefaults_no_default (cols : List CollectionConfig) :
    ∀ c ∈ clearDefaults cols, c.is_default = false := by
  intro c hc
  rw [clearDefaults, List.mem_map] at hc
  obtain ⟨d, _, hd⟩ := hc
  by_cases h : d.is_default
  · rw [if_pos h] at hd
    rw [← hd]
  · rw [if_neg h] at hd
    rw [← hd]
    exact Bool.eq_false_iff.mpr h

theorem setFirstDefault_of_all_clear (cid : String) (l : List CollectionConfig)
    (h : ∀ c ∈ l, c.is_default = false) :
    countDefaults (setFirstDefault cid l) ≤ 1
    ∧ ∀ c ∈ setFirstDefault cid l, c.is_default = true → c.id = cid := by
  induction l with
  | nil => exact ⟨by simp [setFirstDefault, countDefaults], by simp [setFirstDefault]⟩
  | cons c cs ih =>
    have hc := h c (List.mem_cons_self c cs)
    have htail : ∀ x ∈ cs, x.is_default = false := fun x hx => h x (List.mem_cons_of_mem c hx)
    by_cases hid : (c.id == cid) = true
    · rw [setFirstDefault, if_pos hid]
      constructor
      · have hz : countDefaults cs = 0 := by
          rw [countDefaults, List.countP_eq_zero]
          intro a ha
          simp [htail a ha]
        rw [countDefaults, List.countP_cons]
        rw [countDefaults] at hz
        simp [hz]
      · intro x hx hdef
        rcases List.mem_cons.mp hx with h1 | h2
        · rw [h1]
          exact eq_of_beq hid
        · exact absurd hdef (by simp [htail x h2])
    · rw [setFirstDefault, if_neg hid]
      obtain ⟨ih1, ih2⟩ := ih htail
      constructor
      · rw [countDefaults, List.countP_cons]
        rw [countDefaults] at ih1
        simp [hc]
        exact ih1
      · intro x hx hdef
        rcases List.mem_cons.mp hx with h1 | h2
        · rw [h1] at hdef
          exact absurd hdef (by simp [hc])
        · exact ih2 x h2 hdef

theorem set_default_le_one (cid : String) (cols : List CollectionConfig) :
    countDefaults (set_default_collection cid cols) ≤ 1 :=
  (setFirstDefault_of_all_clear cid (clearDefaults cols) (clearDefaults_no_default cols)).1

theorem foldl_set_default_le_one (cids : List String) (s : List CollectionConfig)
    (h : countDefaults s ≤ 1) :
    countDefaults (cids.foldl (fun l c => set_default_collection c l) s) ≤ 1 := by
  induction cids generalizing s with
  | nil => exact h
  | cons c cs ih => exact ih (set_default_collection c s) (set_default_le_one c s)

/-- C1: after any sequence of set_default_collection calls (one or more,
from any starting collection list), at most one collection has
is_default = true; each call first clears the flag on every collection
currently holding it (clearDefaults leaves no default) and then sets the
flag only on the target collection. -/
theorem set_default_single_default (cols : List CollectionConfig) (cid : String)
    (cids : List String) :
    countDefaults (cids.foldl (fun l c => set_default_collection c l)
        (set_default_collection cid cols)) ≤ 1
    ∧ (∀ c ∈ clearDefaults cols, c.is_default = false)
    ∧ (∀ c ∈ set_default_collection cid cols, c.is_default = true → c.id = cid) := by
  refine ⟨?_, clearDefaults_no_default cols, ?_⟩
  · exact foldl_set_default_le_one cids _ (set_default_le_one cid cols)
  · exact (setFirstDefault_of_all_clear cid (clearDefaults cols)
      (clearDefaults_no_default cols)).2

/-- Evaluation of the C1 theorem on a concrete two-collection workspace. -/
theorem set_default_single_default_witness :
    countDefaults (List.foldl (fun l c => set_default_collection c l)
      (set_default_collection ("esett-data")
        [{ id := ("default-timeseries"), name := ("Time Series"), object_type := ("TimeSeries"),
           attributes := [], created_at := (""), emoji := ("📊"), view_type := ("table"),
           created_by := (""), is_favorite := false, is_default := true },
         { id := ("esett-data"), name := ("Esett data"), object_type := ("TimeSeries"),
           attributes := [], created_at := (""), emoji := ("📈"),
           view_type := ("time_series_cards"), created_by := (""), is_favorite := true,
           is_default := false }]) [("default-timeseries")]) ≤ 1 :=
  (set_default_single_default _ ("esett-data") [("default-timeseries")]).1

/-- C6 (counterexample): an error raised by the Site fetch, after the
TimeSeries cache assignment has already happened, is swallowed and the
loaded flag is set, but the cache is left partially updated: the
time_series_entities map holds the freshly hydrated content, which is
neither empty nor the previously populated value, refuting the claim that
the cache content is left empty or as previously populated. -/
theorem load_partial_failure_counterexample :
    (load_entities_from_db exPrevState exPartialGateway).1.entities_loaded = true
    ∧ (load_entities_from_db exPrevState exPartialGateway).1.time_series_entities
        ≠ exPrevState.time_series_entities
    ∧ (load_entities_from_db exPrevState exPartialGateway).1.time_series_entities ≠ []
    ∧ (load_entities_from_db exPrevState exPartialGateway).1.time_series_entities
        = [(("c2"), [exTS ("e2") ("Fresh")])] := by
  refine ⟨by decide, by decide, by decide, by decide⟩

/-- C6 (amended): when a load from the gateway raises an error, the
loaders swallow it and still set the loaded flag, so the next read for
the scope performs no remote fetch; an error raised before the first
cache assignment (workspace, TimeSeries, collections or membership
fetches) leaves every cache unchanged, while an error raised by the Site
fetch leaves the freshly hydrated time_series_entities in place and an
error raised by the Asset fetch additionally leaves the fresh
site_entities, so the cache can end up partially updated; the collections
loader is a single fetch and leaves its cache unchanged on error. -/
theorem load_fail_open_update (s : EntitiesState) (cs : CollectionsState)
    (g : GatewayFetches) (msg : String) (gc : Except String CollectionsGatewayData) :
    (s.entities_loaded = false →
      (load_entities_from_db s g).1.entities_loaded = true
        ∧ (load_entities_from_db s g).2 = true)
    ∧ (s.entities_loaded = true → load_entities_from_db s g = (s, false))
    ∧ (s.entities_loaded = false → g.workspace = .error msg →
        load_entities_from_db s g = ({ s with entities_loaded := true }, true))
    ∧ (∀ wid, s.entities_loaded = false → g.workspace = .ok (some wid) →
        g.timeseries_rows = .error msg →
        load_entities_from_db s g = ({ s with entities_loaded := true }, true))
    ∧ (∀ wid ts, s.entities_loaded = false → g.workspace = .ok (some wid) →
        g.timeseries_rows = .ok ts → g.collection_rows = .error msg →
        load_entities_from_db s g = ({ s with entities_loaded := true }, true))
    ∧ (∀ wid ts cols, s.entities_loaded = false → g.workspace = .ok (some wid) →
        g.timeseries_rows = .ok ts → g.collection_rows = .ok cols →
        g.memberships = .error msg →
        load_entities_from_db s g = ({ s with entities_loaded := true }, true))
    ∧ (∀ wid ts cols mems, s.entities_loaded = false → g.workspace = .ok (some wid) →
        g.timeseries_rows = .ok ts → g.collection_rows = .ok cols →
        g.memberships = .ok mems → g.site_rows = .error msg →
        load_entities_from_db s g
          = ({ s with
                time_series_entities := cols.map (fun col =>
                  (col.id, hydrate_collection (build_entity_map ts) (dictGetD mems col.id []))),
                entities_loaded := true }, true))
    ∧ (∀ wid ts cols mems sites, s.entities_loaded = false →
        g.workspace = .ok (some wid) → g.timeseries_rows = .ok ts →
        g.collection_rows = .ok cols → g.memberships = .ok mems →
        g.site_rows = .ok sites → g.asset_rows = .error msg →
        load_entities_from_db s g
          = ({ s with
                time_series_entities := cols.map (fun col =>
                  (col.id, hydrate_collection (build_entity_map ts) (dictGetD mems col.id []))),
                site_entities := sites,
                entities_loaded := true }, true))
    ∧ (cs.collections_loaded = false →
        load_collections_from_db cs (.error msg)
          = ({ cs with collections_loaded := true }, false, true))
    ∧ (cs.collections_loaded = true →
        load_collections_from_db cs gc = (cs, decide (cs.collections.length > 0), false)) := by
  refine ⟨?_, ?_, ?_, ?_, ?_, ?_, ?_, ?_, ?_, ?_⟩
  · intro h
    rw [load_entities_from_db.eq_def, if_neg (by simp [h])]
    rcases g with ⟨w, ts, cols, mems, sites, assets⟩
    cases w with
    | error e => exact ⟨rfl, rfl⟩
    | ok ow =>
      cases ow with
      | none => exact ⟨rfl, rfl⟩
      | some wid =>
        cases ts with
        | error e => exact ⟨rfl, rfl⟩
        | ok tsr =>
          cases cols with
          | error e => exact ⟨rfl, rfl⟩
          | ok colr =>
            cases mems with
            | error e => exact ⟨rfl, rfl⟩
            | ok memr =>
              cases sites with
              | error e => exact ⟨rfl, rfl⟩
              | ok siter =>
                cases assets with
                | error e => exact ⟨rfl, rfl⟩
                | ok assetr => exact ⟨rfl, rfl⟩
  · intro h
    rw [load_entities_from_db.eq_def, if_pos h]
  · intro h hw
    rw [load_entities_from_db.eq_def, if_neg (by simp [h]), hw]
  · intro wid h hw hts
    rw [load_entities_from_db.eq_def, if_neg (by simp [h]), hw, hts]
  · intro wid ts h hw hts hcols
    rw [load_entities_from_db.eq_def, if_neg (by simp [h]), hw, hts, hcols]
  · intro wid ts cols h hw hts hcols hmems
    rw [load_entities_from_db.eq_def, if_neg (by simp [h]), hw, hts, hcols, hmems]
  · intro wid ts cols mems h hw hts hcols hmems hsites
    rw [load_entities_from_db.eq_def, if_neg (by simp [h]), hw, hts, hcols, hmems, hsites]
  · intro wid ts cols mems sites h hw hts hcols hmems hsites hassets
    rw [load_entities_from_db.eq_def, if_neg (by simp [h]), hw, hts, hcols, hmems, hsites,
      hassets]
  · intro h
    rw [load_collections_from_db.eq_def, if_neg (by simp [h])]
  · intro h
    rw [load_collections_from_db.eq_def, if_pos h]

/-- Evaluation of the amended C6 theorem at the concrete partial-failure
input: the Site fetch fails after the TimeSeries cache assignment, so the
loaded state keeps the freshly hydrated cache. -/
theorem load_fail_open_update_witness :
    load_entities_from_db exPrevState exPartialGateway
      = ({ exPrevState with
            time_series_entities := [(("c2"), [exTS ("e2") ("Fresh")])],
            entities_loaded := true }, true) := by
  have h := (load_fail_open_update exPrevState exCollState exPartialGateway
      ("transport error") (Except.error ("transport error"))).2.2.2.2.2.2.1
      ("w1") [exTS ("e2") ("Fresh")] [exCol2] [(("c2"), [("e2")])]
      rfl rfl rfl rfl rfl rfl
  rw [h]
  decide

theorem flip_favorite_twice (c : CollectionConfig) :
    ({ c with is_favorite := !(!c.is_favorite) } : CollectionConfig) = c := by
  cases c
  simp

/-- C10: toggle_collection_favorite negates is_favorite on the first
collection whose id matches and changes nothing else: when no collection
matches the list is unchanged; applying it twice restores the original
list; and in general the result is either the unchanged list or the list
with exactly the first matching collection replaced by a copy whose
is_favorite is negated. -/
theorem toggle_favorite_frame (cid : String) (l : List CollectionConfig) :
    ((∀ c ∈ l, c.id ≠ cid) → toggle_collection_favorite cid l = l)
    ∧ toggle_collection_favorite cid (toggle_collection_favorite cid l) = l
    ∧ (toggle_collection_favorite cid l = l ∨
        ∃ pre c post, l = pre ++ c :: post ∧ (∀ x ∈ pre, x.id ≠ cid) ∧ c.id = cid ∧
          toggle_collection_favorite cid l =
            pre ++ { c with is_favorite := !c.is_favorite } :: post) := by
  induction l with
  | nil => exact ⟨fun _ => rfl, rfl, Or.inl rfl⟩
  | cons c cs ih =>
    by_cases h : (c.id == cid) = true
    · have hcid : c.id = cid := eq_of_beq h
      refine ⟨?_, ?_, ?_⟩
      · intro hall
        exact absurd hcid (hall c (List.mem_cons_self c cs))
      · rw [toggle_collection_favorite, if_pos h]
        have h2 : (({ c with is_favorite := !c.is_favorite } : CollectionConfig).id == cid) = true := by
          simpa using h
        rw [toggle_collection_favorite, if_pos h2]
        have h3 : ({ { c with is_favorite := !c.is_favorite } with
            is_favorite := !(({ c with is_favorite := !c.is_favorite } : CollectionConfig).is_favorite) } : CollectionConfig) = c :=
          flip_favorite_twice c
        rw [h3]
      · right
        exact ⟨[], c, cs, rfl, by simp, hcid, by rw [toggle_collection_favorite, if_pos h]; rfl⟩
    · refine ⟨?_, ?_, ?_⟩
      · intro hall
        rw [toggle_collection_favorite, if_neg h,
          ih.1 (fun x hx => hall x (List.mem_cons_of_mem c hx))]
      · rw [toggle_collection_favorite, if_neg h, toggle_collection_favorite, if_neg h, ih.2.1]
      · rcases ih.2.2 with heq | ⟨pre, d, post, hsplit, hpre, hd, htog⟩
        · left
          rw [toggle_collection_favorite, if_neg h, heq]
        · right
          refine ⟨c :: pre, d, post, by rw [hsplit]; rfl, ?_, hd, ?_⟩
          · intro x hx
            rcases List.mem_cons.mp hx with h1 | h2
            · subst h1
              intro hc
              exact h (by simp [hc])
            · exact hpre x h2
          · rw [toggle_collection_favorite, if_neg h, htog]
            rfl

/-- Evaluation of the C10 theorem: toggling a favorite twice on a concrete
one-collection list restores the list. -/
theorem toggle_favorite_frame_witness :
    toggle_collection_favorite ("default-timeseries")
      (toggle_collection_favorite ("default-timeseries")
        [{ id := ("default-timeseries"), name := ("Time Series"), object_type := ("TimeSeries"),
           attributes := [], created_at := (""), emoji := ("📊"), view_type := ("table"),
           created_by := (""), is_favorite := false, is_default := true }])
    = [{ id := ("default-timeseries"), name := ("Time Series"), object_type := ("TimeSeries"),
         attributes := [], created_at := (""), emoji := ("📊"), view_type := ("table"),
         created_by := (""), is_favorite := false, is_default := true }] :=
  (toggle_favorite_frame ("default-timeseries") _).2.1

theorem dictSet_mem {α : Type} (d : List (String × α)) (k : String) (v : α)
    (q : String × α) (hq : q ∈ dictSet d k v) : q ∈ d ∨ q = (k, v) := by
  rw [dictSet] at hq
  by_cases h : dictContains d k = true
  · rw [if_pos h] at hq
    rw [List.mem_map] at hq
    obtain ⟨p, hp, he⟩ := hq
    by_cases h2 : (p.1 == k) = true
    · right
      rw [if_pos h2] at he
      rw [← he, eq_of_beq h2]
    · left
      rw [if_neg h2] at he
      rw [← he]
      exact hp
  · rw [if_neg h] at hq
    rcases List.mem_append.mp hq with h1 | h2
    · exact Or.inl h1
    · right
      simpa using h2

theorem build_entity_map_consistent (rows : List TimeSeries) :
    ∀ p ∈ build_entity_map rows, p.2.id = p.1 := by
  suffices h : ∀ (rs : List TimeSeries) (m : List (String × TimeSeries)),
      (∀ p ∈ m, p.2.id = p.1) →
      ∀ p ∈ rs.foldl (fun m e => dictSet m e.id e) m, p.2.id = p.1 by
    exact h rows [] (by simp)
  intro rs
  induction rs with
  | nil =>
    intro m hm
    simpa using hm
  | cons e es ih =>
    intro m hm p hp
    refine ih (dictSet m e.id e) ?_ p hp
    intro q hq
    rcases dictSet_mem m e.id e q hq with h1 | h2
    · exact hm q h1
    · rw [h2]

theorem dictFind_id (rows : List TimeSeries) (k : String) (v : TimeSeries)
    (h : dictFind (build_entity_map rows) k = some v) : v.id = k := by
  rw [dictFind] at h
  cases hf : (build_entity_map rows).find? (fun p => p.1 == k) with
  | none =>
    rw [hf] at h
    cases h
  | some p =>
    rw [hf] at h
    simp at h
    have hmem := List.mem_of_find?_eq_some hf
    have hpred := List.find?_some hf
    have hid := build_entity_map_consistent rows p hmem
    rw [← h, hid]
    exact eq_of_beq hpred

/-- C9: during hydration, a membership entity id that does not resolve to
a loaded TimeSeries entity is silently dropped: the hydrated list contains
exactly the entities of the resolvable ids, in membership order, so a
collection can show fewer entities than it has membership rows. -/
theorem hydration_drops_unresolved (rows : List TimeSeries) (ids : List String) :
    (hydrate_collection (build_entity_map rows) ids).length ≤ ids.length
    ∧ (hydrate_collection (build_entity_map rows) ids).map (fun e => e.id)
      = ids.filter (fun eid => (dictFind (build_entity_map rows) eid).isSome) := by
  constructor
  · exact List.length_filterMap_le _ _
  · rw [hydrate_collection]
    induction ids with
    | nil => rfl
    | cons eid rest ih =>
      rw [List.filterMap_cons, List.filter_cons]
      cases hf : dictFind (build_entity_map rows) eid with
      | none =>
        simpa [hf] using ih
      | some v =>
        simp only [hf, Option.isSome_some, if_pos, List.map_cons]
        rw [dictFind_id rows eid v hf]
        simpa using ih

/-- C2 (code bug evidence): on the entity create write path, the in-memory
cache is updated and a success toast is returned even when the persist
step fails with a transport error - the failure is swallowed inside
_save_entity_to_db instead of being surfaced as a failed command. -/
theorem create_entity_cache_updated_despite_persist_failure :
    (create_entity (exEntState [(("default-timeseries"), [])] ("TimeSeries"))
        (exForm ("Turbine A")) ("e1") ("t0") (.error ("transport error"))).2.1
      = .toastSuccess ("TimeSeries \x27Turbine A\x27 created successfully!")
    ∧ (dictGetD (create_entity (exEntState [(("default-timeseries"), [])] ("TimeSeries"))
        (exForm ("Turbine A")) ("e1") ("t0") (.error ("transport error"))).1.time_series_entities
        ("default-timeseries") []).map (fun e => e.name) = [("Turbine A")] := by
  constructor
  · decide
  · decide

/-- C3 (counterexample): create_collection called with an empty name
performs its side effects anyway - it appends the collection, attempts the
persist, and reports success; no validation error is raised before the
side effects. -/
theorem create_collection_empty_name_no_validation :
    ((create_collection exCollState
        { collection_name := (""), object_type := ("TimeSeries"), emoji := ("📋") }
        ("c1") ("t0") (.ok ())).1.collections.map (fun c => c.name) = [("")])
    ∧ (create_collection exCollState
        { collection_name := (""), object_type := ("TimeSeries"), emoji := ("📋") }
        ("c1") ("t0") (.ok ())).2.2 = true
    ∧ (create_collection exCollState
        { collection_name := (""), object_type := ("TimeSeries"), emoji := ("📋") }
        ("c1") ("t0") (.ok ())).2.1
      = .toastSuccess ("Collection \x27\x27 created successfully!") := by
  exact ⟨rfl, rfl, rfl⟩

/-- C3 (amended): create_entity with an empty (or all-whitespace, or
missing) name returns the validation error before any side effect - the
state is returned unchanged and no persist is attempted; create_collection
however performs no name validation: it always appends the new collection
and attempts the persist, even for an empty name. -/
theorem create_validation_amended (s : EntitiesState) (form : CreateForm)
    (eid now : String) (p : Except String Unit) (cs : CollectionsState)
    (cform : CreateCollectionForm) (cid cnow : String) (cp : Except String Unit) :
    (pyStrip form.name = "" →
      create_entity s form eid now p = (s, .toastError ("Name is required"), false))
    ∧ (create_collection cs cform cid cnow cp).1.collections.length
        = cs.collections.length + 1
    ∧ (create_collection cs cform cid cnow cp).2.2 = true := by
  refine ⟨?_, ?_, rfl⟩
  · intro h
    simp [create_entity, h]
  · simp [create_collection]

/-- Evaluation of the amended C3 theorem: an empty-name create_entity call
on a concrete state is rejected with no state change. -/
theorem create_validation_amended_witness :
    create_entity (exEntState [] ("TimeSeries")) (exForm ("")) ("e1") ("t0") (.ok ())
      = (exEntState [] ("TimeSeries"), .toastError ("Name is required"), false) :=
  (create_validation_amended (exEntState [] ("TimeSeries")) (exForm ("")) ("e1") ("t0")
    (.ok ()) exCollState
    { collection_name := (""), object_type := ("TimeSeries"), emoji := ("📋") }
    ("c1") ("t0") (.ok ())).1 rfl

theorem dictContains_false_find_none {α : Type} (d : List (String × α)) (k : String)
    (h : dictContains d k = false) : d.find? (fun p => p.1 == k) = none := by
  rw [List.find?_eq_none]
  intro p hp
  rw [dictContains] at h
  have := List.any_eq_false.mp h p hp
  simpa using this

theorem getD_map_append {α : Type} (d : List (String × List α)) (k : String) (v : α)
    (h : dictContains d k = true) :
    dictGetD (d.map (fun p => if p.1 == k then (p.1, p.2 ++ [v]) else p)) k []
      = dictGetD d k [] ++ [v] := by
  induction d with
  | nil => simp [dictContains] at h
  | cons p ps ih =>
    by_cases hp : (p.1 == k) = true
    · have e1 : (p :: ps).map (fun q => if q.1 == k then (q.1, q.2 ++ [v]) else q)
          = (p.1, p.2 ++ [v]) :: ps.map (fun q => if q.1 == k then (q.1, q.2 ++ [v]) else q) := by
        rw [List.map_cons, if_pos hp]
      rw [e1, dictGetD, dictGetD]
      simp only [List.find?_cons, hp]
    · have e1 : (p :: ps).map (fun q => if q.1 == k then (q.1, q.2 ++ [v]) else q)
          = p :: ps.map (fun q => if q.1 == k then (q.1, q.2 ++ [v]) else q) := by
        rw [List.map_cons, if_neg hp]
      have hpf : (p.1 == k) = false := Bool.eq_false_iff.mpr hp
      have h2 : dictContains ps k = true := by
        rw [dictContains, List.any_cons, Bool.or_eq_true] at h
        rcases h with h1 | h1
        · exact absurd h1 hp
        · rw [dictContains]
          exact h1
      have h3 := ih h2
      rw [dictGetD, dictGetD] at h3
      rw [e1, dictGetD, dictGetD]
      simp only [List.find?_cons, hpf]
      exact h3

theorem dictAppend_getD {α : Type} (d : List (String × List α)) (k : String) (v : α) :
    dictGetD (dictAppend d k v) k [] = dictGetD d k [] ++ [v] := by
  rw [dictAppend]
  by_cases h : dictContains d k = true
  · rw [if_pos h]
    exact getD_map_append d k v h
  · rw [if_neg h]
    have hb : dictContains d k = false := Bool.eq_false_iff.mpr h
    have hn := dictContains_false_find_none d k hb
    have hmap : d.map (fun p => if p.1 == k then (p.1, p.2 ++ [v]) else p) = d := by
      conv_rhs => rw [← List.map_id d]
      refine List.map_congr_left (fun p hp => ?_)
      have h2 : d.any (fun q => q.1 == k) = false := hb
      have h1 : ¬ ((p.1 == k) = true) := List.any_eq_false.mp h2 p hp
      rw [if_neg h1]
      rfl
    rw [List.map_append, hmap]
    have hone : ([((k : String), ([] : List α))].map
        (fun p => if p.1 == k then (p.1, p.2 ++ [v]) else p)) = [(k, [v])] := by
      simp
    rw [hone, dictGetD, List.find?_append, hn]
    rw [dictGetD, hn]
    simp [List.find?]

/-- C4 (counterexample): the cache insert performed by create_entity is a
plain append with no id-based replacement: inserting an entity whose id
already exists in the target list yields a list of length two holding two
elements with the same id. -/
theorem put_duplicates_counterexample :
    ((dictGetD (create_entity
        (exEntState [(("default-timeseries"), [exTS ("e1") ("Old")])] ("TimeSeries"))
        (exForm ("Turbine A")) ("e1") ("t0") (.ok ())).1.time_series_entities
        ("default-timeseries") []).map (fun e => e.id)) = [("e1"), ("e1")] := by
  decide

/-- C4 (amended): the cache insert performed by create_entity appends
unconditionally: for every cache state the target list grows by exactly
the new entity at its end, with no replacement of an existing element with
the same id (in the source the id is a fresh uuid4, and the remote
upsert_entity is idempotent on id, but the in-memory list append is not). -/
theorem put_appends_unconditionally (s : EntitiesState) (form : CreateForm)
    (eid now : String) (p : Except String Unit)
    (hname : ¬ pyStrip form.name = "")
    (htype : s.selected_object_type = "TimeSeries") :
    dictGetD (create_entity s form eid now p).1.time_series_entities
        ("default-timeseries") []
      = dictGetD s.time_series_entities ("default-timeseries") []
          ++ [new_time_series form eid now] := by
  have hstep : (create_entity s form eid now p).1.time_series_entities
      = dictAppend s.time_series_entities ("default-timeseries")
          (new_time_series form eid now) := by
    simp [create_entity, hname, htype]
  rw [hstep]
  exact dictAppend_getD _ _ _

/-- Evaluation of the amended C4 theorem at a concrete state whose target
list already holds an entity with the same id. -/
theorem put_appends_unconditionally_witness :
    dictGetD (create_entity
        (exEntState [(("default-timeseries"), [exTS ("e1") ("Old")])] ("TimeSeries"))
        (exForm ("Turbine A")) ("e1") ("t0") (.ok ())).1.time_series_entities
        ("default-timeseries") []
      = [exTS ("e1") ("Old"), new_time_series (exForm ("Turbine A")) ("e1") ("t0")] :=
  put_appends_unconditionally
    (exEntState [(("default-timeseries"), [exTS ("e1") ("Old")])] ("TimeSeries"))
    (exForm ("Turbine A")) ("e1") ("t0") (.ok ()) (by decide) rfl

theorem load_timeseries_data_preserves_loaded (s : EntitiesState)
    (api : Except String (List TimeSeries)) :
    (load_timeseries_data s api).entities_loaded = s.entities_loaded := by
  cases api with
  | error e => rfl
  | ok items => rfl

theorem create_entity_preserves_loaded (s : EntitiesState) (form : CreateForm)
    (eid now : String) (p : Except String Unit) :
    (create_entity s form eid now p).1.entities_loaded = s.entities_loaded := by
  simp only [create_entity]
  split
  · rfl
  · split
    · rfl
    · split
      · rfl
      · split
        · rfl
        · rfl

/-- C7: once the entity scope is loaded, no operation of the subsystem
other than the explicit invalidate (on_load_entity_page, which clears the
flag) issues a store fetch for the scope or returns the scope to the
unloaded state; in particular every load call while the flag is set
returns immediately without touching the gateway, and the collections
scope loader behaves the same way under its flag. -/
theorem load_once (s : EntitiesState) (op : EntOp)
    (hl : s.entities_loaded = true) (hop : op.isExplicitInvalidate = false) :
    (ent_step op s).1.entities_loaded = true ∧ (ent_step op s).2 = false
    ∧ (∀ g, load_entities_from_db s g = (s, false))
    ∧ (∀ cs : CollectionsState, cs.collections_loaded = true →
        ∀ gc, load_collections_from_db cs gc = (cs, decide (cs.collections.length > 0), false)) := by
  have hload : ∀ g, load_entities_from_db s g = (s, false) := by
    intro g
    rw [load_entities_from_db.eq_def, if_pos hl]
  have hmain : (ent_step op s).1.entities_loaded = true ∧ (ent_step op s).2 = false := by
    cases op with
    | onLoad g now =>
      have h1 := hload g
      simp only [ent_step, on_load_entities, h1]
      split
      · exact ⟨hl, rfl⟩
      · exact ⟨hl, rfl⟩
    | onLoadEntityPage g entity_name =>
      simp [EntOp.isExplicitInvalidate] at hop
    | loadEntityPage object_type api =>
      simp only [ent_step]
      split
      · refine ⟨?_, rfl⟩
        rw [load_timeseries_data_preserves_loaded]
        exact hl
      · exact ⟨hl, rfl⟩
    | refreshTimeseries api =>
      refine ⟨?_, rfl⟩
      show (load_timeseries_data { s with is_loading := true } api).entities_loaded = true
      rw [load_timeseries_data_preserves_loaded]
      exact hl
    | createEntity form entity_id now persist =>
      refine ⟨?_, rfl⟩
      show (create_entity s form entity_id now persist).1.entities_loaded = true
      rw [create_entity_preserves_loaded]
      exact hl
    | setSearchQuery q => exact ⟨hl, rfl⟩
    | selectObjectType object_type => exact ⟨hl, rfl⟩
  refine ⟨hmain.1, hmain.2, hload, ?_⟩
  intro cs h gc
  rw [load_collections_from_db.eq_def, if_pos h]

/-- Evaluation of the C7 theorem on a concrete loaded state and a
non-invalidate operation. -/
theorem load_once_witness :
    (ent_step (.setSearchQuery ("wind")) (exEntState [] (""))).1.entities_loaded = true :=
  (load_once (exEntState [] ("")) (.setSearchQuery ("wind")) rfl rfl).1

/-- C8: set_collection_entities deletes every existing membership row for
the collection and then inserts one row per id in the given list, so that
afterwards the membership rows for the collection carry exactly the given
entity ids in order, while the membership rows of every other collection
are unchanged. -/
theorem set_collection_entities_replaces (table : List MembershipRow)
    (cid : String) (eids : List String) (now : String) :
    (((set_collection_entities true table cid eids now).1.filter
        (fun r => r.collection_id == cid)).map (fun r => r.entity_id) = eids)
    ∧ ((set_collection_entities true table cid eids now).2 = true)
    ∧ ∀ c : String, c ≠ cid →
        (set_collection_entities true table cid eids now).1.filter
            (fun r => r.collection_id == c)
          = table.filter (fun r => r.collection_id == c) := by
  have hstep : (set_collection_entities true table cid eids now).1
      = table.filter (fun r => !(r.collection_id == cid))
        ++ eids.map (fun eid =>
            ({ collection_id := cid, entity_id := eid, added_at := now } : MembershipRow)) := by
    rw [set_collection_entities.eq_def]
    rfl
  refine ⟨?_, by rw [set_collection_entities.eq_def]; rfl, ?_⟩
  · rw [hstep, List.filter_append]
    have h1 : (table.filter (fun r => !(r.collection_id == cid))).filter
        (fun r => r.collection_id == cid) = [] := by
      rw [List.filter_filter]
      have : ∀ r ∈ table, ((r.collection_id == cid) && !(r.collection_id == cid)) = false := by
        intro r _
        cases hr : (r.collection_id == cid) <;> simp [hr]
      rw [List.filter_congr this]
      exact List.filter_false table
    have h2 : (eids.map (fun eid =>
        ({ collection_id := cid, entity_id := eid, added_at := now } : MembershipRow))).filter
          (fun r => r.collection_id == cid)
        = eids.map (fun eid =>
            ({ collection_id := cid, entity_id := eid, added_at := now } : MembershipRow)) := by
      clear hstep h1
      induction eids with
      | nil => rfl
      | cons e es ih =>
        rw [List.map_cons, List.filter_cons]
        simp only [beq_self_eq_true, if_pos]
        rw [ih]
    rw [h1, h2, List.nil_append, List.map_map]
    exact List.map_id eids
  · intro c hc
    rw [hstep, List.filter_append]
    have h1 : (table.filter (fun r => !(r.collection_id == cid))).filter
        (fun r => r.collection_id == c) = table.filter (fun r => r.collection_id == c) := by
      rw [List.filter_filter]
      refine List.filter_congr (fun r _ => ?_)
      cases hr : (r.collection_id == c) with
      | false => simp
      | true =>
        have : r.collection_id = c := eq_of_beq hr
        have h3 : (r.collection_id == cid) = false := by
          rw [this]
          exact beq_eq_false_iff_ne.mpr hc
        simp [h3]
    have h2 : (eids.map (fun eid =>
        ({ collection_id := cid, entity_id := eid, added_at := now } : MembershipRow))).filter
          (fun r => r.collection_id == c) = [] := by
      clear hstep h1
      induction eids with
      | nil => rfl
      | cons e es ih =>
        rw [List.map_cons, List.filter_cons]
        have h4 : ((({ collection_id := cid, entity_id := e, added_at := now } :
            MembershipRow)).collection_id == c) = false := by
          exact beq_eq_false_iff_ne.mpr (fun h => hc h.symm)
        rw [h4]
        simpa using ih
    rw [h1, h2, List.append_nil]

/-- Evaluation of the C8 theorem: replacing the memberships of one
collection on a concrete table leaves another collection untouched. -/
theorem set_collection_entities_replaces_witness :
    (set_collection_entities true
        [{ collection_id := ("other"), entity_id := ("e9"), added_at := ("t") }]
        ("c1") [("e1"), ("e2")] ("t2")).1.filter
        (fun r => r.collection_id == ("other"))
      = [{ collection_id := ("other"), entity_id := ("e9"), added_at := ("t") }] :=
  (set_collection_entities_replaces
    [{ collection_id := ("other"), entity_id := ("e9"), added_at := ("t") }]
    ("c1") [("e1"), ("e2")] ("t2")).2.2 ("other") (by decide)
